import Mathlib

/-!
# Verification of the javaobj v2 stream parser

A shallow embedding, in Lean 4, of the deserialization core of
`tcalmant/python-javaobj` (the "v2" parser):

* `src/javaobj/v2/stream.py`  — `DataStreamReader` (byte cursor);
* `src/javaobj/modifiedutf8.py` — `decode_modified_utf8`;
* `src/javaobj/v2/beans.py`   — content beans (`JavaClassDesc.data_type`,
  `JavaClassDesc.validate`, `JavaString`, …);
* `src/javaobj/v2/core.py`    — `JavaStreamParser` (tag dispatch, handle
  table, class descriptors, instances, arrays, enums, exceptions);
* `src/javaobj/v2/transformers.py` — `JavaMap.load_from_instance`.

Modelling conventions:

* A byte stream is a `List Nat` of byte values (each `< 256`); a Python
  file object is the pair of the stream and a cursor position.
* Python strings (which are sequences of code points, surrogates allowed)
  are `List Nat` of code points.
* Machine integers are read as `Nat` (unsigned) or `Int` (signed,
  two's complement via `toSigned`).
* IEEE-754 `float`/`double` field values are kept as their raw bit
  patterns (no claim is about float arithmetic).
* Python object references are modelled arena-style: every parsed content
  bean lives in `PState.arena` and is designated by its index (`Nat`), so
  aliasing and in-place mutation (e.g. filling `field_data` of an already
  registered instance) are represented faithfully.
* Python exceptions are modelled by `Except`: `PFail.err` for fatal
  errors (`ValueError`, `EOFError`, `UnicodeDecodeError`, …) and
  `PFail.excRead` for the internal `ExceptionRead` control-flow exception,
  which `_read_content` catches.  State mutations performed before a
  raise survive it, hence every operation returns the state in both the
  success and the failure case.
* The parser is embedded with an empty transformer list (the
  `transformers` constructor argument of `JavaStreamParser`), so
  `_create_instance` builds a plain `JavaInstance`, `load_array` falls
  back to the element-by-element loop, `load_from_blockdata` returns
  `False` and `load_from_instance` is a no-op — exactly the base-class
  behaviour in `beans.py`.  The default transformer `JavaMap` is embedded
  separately as a pure function on the collected annotations.
* Recursion in the parser is made total with an explicit `fuel`
  parameter; running out of fuel is the distinguished error
  `PErr.outOfFuel`, which no genuine Python execution produces.
-/

/-! ## Byte-level helpers -/

/-- Big-endian value of a byte list (`struct.unpack` of `>H`, `>i`, …). -/
def beNat (bs : List Nat) : Nat :=
  bs.foldl (fun a b => a * 256 + b) 0

/-- Two's-complement reinterpretation of an unsigned `bits`-bit value,
as performed by the signed `struct` formats (`>b`, `>h`, `>i`, `>q`). -/
def toSigned (bits : Nat) (v : Nat) : Int :=
  if v < 2 ^ (bits - 1) then (v : Int) else (v : Int) - 2 ^ bits

/-! ## Modified UTF-8 decoding (`modifiedutf8.py`)

`decodeMutf8Chars` is the `decoder` generator: it walks the byte list and
produces the list of code points, failing (`UnicodeDecodeError`) exactly
where the Python decoder raises.  The 6-byte branch is taken for a lead
byte `0xED`; its five follow-up bytes are checked with the masks of
`DECODER_MAP[6]` and contribute 4+6+0+4+6 value bits.  A lead byte in
`0xF0..0xFF` or `0x80..0xBF`, or an embedded zero byte, is an error. -/

def decodeMutf8Chars : List Nat → Except Unit (List Nat)
  | [] => .ok []
  | d :: rest =>
    if d == 0 then .error ()
    else if d < 0x80 then (decodeMutf8Chars rest).map (fun v => d :: v)
    else if d < 0xC0 then .error ()
    else if d < 0xE0 then
      match rest with
      | d1 :: rest1 =>
        if d1 &&& 0xC0 == 0x80 then
          (decodeMutf8Chars rest1).map
            (fun v => (((d &&& 0x1F) <<< 6) ||| (d1 &&& 0x3F)) :: v)
        else .error ()
      | [] => .error ()
    else if d &&& 0x10 != 0 then .error ()
    else if d == 0xED then
      match rest with
      | d1 :: d2 :: d3 :: d4 :: d5 :: rest5 =>
        if d1 &&& 0xF0 == 0xA0 && d2 &&& 0xC0 == 0x80 && d3 == 0xED
            && d4 &&& 0xF0 == 0xB0 && d5 &&& 0xC0 == 0x80 then
          (decodeMutf8Chars rest5).map
            (fun v =>
              (((((((d1 &&& 0xF) <<< 6) ||| (d2 &&& 0x3F)) <<< 4)
                  ||| (d4 &&& 0xF)) <<< 6) ||| (d5 &&& 0x3F)) :: v)
        else .error ()
      | _ => .error ()
    else
      match rest with
      | d1 :: d2 :: rest2 =>
        if d1 &&& 0xC0 == 0x80 && d2 &&& 0xC0 == 0x80 then
          (decodeMutf8Chars rest2).map
            (fun v =>
              (((((d &&& 0x0F) <<< 6) ||| (d1 &&& 0x3F)) <<< 6)
                ||| (d2 &&& 0x3F)) :: v)
        else .error ()
      | _ => .error ()

/-- `decode_modified_utf8(data)` with the default `errors="strict"`:
the decoded text together with its length in code points. -/
def decode_modified_utf8 (data : List Nat) : Except Unit (List Nat × Nat) :=
  (decodeMutf8Chars data).map (fun v => (v, v.length))

/-- Code points of an ASCII Lean string literal, for writing concrete
Python strings (class names, …) in the embedding. -/
def strLit (s : String) : List Nat :=
  s.data.map Char.toNat

/-! ## `JavaString` (`beans.py`, lines 168-200)

The constructor decodes the raw bytes; `__eq__` compares the decoded
value with the other operand and `__hash__` hashes the decoded value.
`py_hash` is a concrete stand-in for Python's string hash: all that the
source guarantees (and all that the claims use) is that `JavaString`
delegates both `==` and `hash` to `self.value`, so the same function is
applied on both sides. -/

structure JStr where
  handle : Int
  value : List Nat
  length : Nat
  deriving DecidableEq, Repr

/-- `JavaString.__init__`: decode, store value and code-point count. -/
def mkJavaString (handle : Int) (data : List Nat) : Except Unit JStr :=
  (decode_modified_utf8 data).map (fun vl => ⟨handle, vl.1, vl.2⟩)

/-- Stand-in for Python's `hash` on a native string. -/
def py_hash (s : List Nat) : Nat :=
  s.foldl (fun a c => a * 1000003 + c + 1) 5381

/-- `JavaString.__eq__(self, other)`: `self.value == other`. -/
def jstring_eq (s : JStr) (other : List Nat) : Bool :=
  s.value == other

/-- `JavaString.__hash__(self)`: `hash(self.value)`. -/
def jstring_hash (s : JStr) : Nat :=
  py_hash s.value

/-! ## Class-description flags (`constants.py`, `beans.py`) -/

/-- `ClassDescFlags` (`constants.py`). -/
def SC_WRITE_METHOD : Nat := 0x01
def SC_BLOCK_DATA : Nat := 0x08
def SC_SERIALIZABLE : Nat := 0x02
def SC_EXTERNALIZABLE : Nat := 0x04
def SC_ENUM : Nat := 0x10

/-- `ClassDataType` (`beans.py`). -/
def NOWRCLASS : Nat := 0
def WRCLASS : Nat := 1
def EXTERNAL_CONTENTS : Nat := 2
def OBJECT_ANNOTATION : Nat := 3

/-- Python's `mask & desc_flags` where `desc_flags` is the signed byte
stored by `_do_classdesc` and `mask < 256`: on the infinite
two's-complement integers this equals masking the low 8 bits, i.e.
`(desc_flags mod 256) &&& mask`. -/
def flagAnd (flags : Int) (mask : Nat) : Nat :=
  (flags % 256).toNat &&& mask

/-- `JavaClassDesc.data_type` (`beans.py`, lines 328-347).  `.error ()`
is the `raise ValueError("Unhandled Class Data Type")` branch.  Note the
source tests `SC_WRITE_METHOD` — not `SC_BLOCK_DATA` — in the
externalizable case. -/
def data_type (flags : Int) : Except Unit Nat :=
  if flagAnd flags SC_SERIALIZABLE != 0 then
    .ok (if flagAnd flags SC_WRITE_METHOD != 0 then WRCLASS else NOWRCLASS)
  else if flagAnd flags SC_EXTERNALIZABLE != 0 then
    .ok (if flagAnd flags SC_WRITE_METHOD != 0 then OBJECT_ANNOTATION
         else EXTERNAL_CONTENTS)
  else .error ()

/-! ## Content model (`beans.py`), arena style -/

/-- `JavaField`: declared type code (signed byte as read), decoded name,
and for object/array fields the node id of the class-name `JavaString`. -/
structure JField where
  ftype : Int
  name : List Nat
  className : Option Nat
  deriving DecidableEq, Repr

/-- A value of an instance field or array element
(`_read_field_value`).  `ref` holds a parsed content node (or Python
`None`); `vfloatBits`/`vdoubleBits` keep the raw IEEE-754 bytes. -/
inductive FValue where
  | vbyte (i : Int)
  | vchar (c : Nat)
  | vshort (i : Int)
  | vint (i : Int)
  | vlong (i : Int)
  | vbool (b : Bool)
  | vfloatBits (n : Nat)
  | vdoubleBits (n : Nat)
  | ref (nid : Option Nat)
  deriving DecidableEq, Repr

/-- `JavaClassDesc` (mutable bean; node ids for the recursive parts). -/
structure CDesc where
  classType : Nat              -- 0 = NORMALCLASS, 1 = PROXYCLASS
  name : Option (List Nat)
  suid : Int
  descFlags : Int
  fields : List JField
  annotations : List (Option Nat)
  superClass : Option Nat
  isSuperClass : Bool
  interfaces : List (List Nat)
  enumConstants : List (List Nat)
  deriving DecidableEq, Repr

/-- `JavaInstance` (field data and annotations keyed by class-descriptor
node id, in hierarchy order, as the insertion-ordered Python dicts). -/
structure Inst where
  classdesc : Option Nat
  fieldData : List (Nat × List (JField × FValue))
  annotations : List (Nat × List (Option Nat))
  isExternal : Bool
  deriving DecidableEq, Repr

/-- The sum of the parsed content beans. -/
inductive NodeBody where
  | jstring (value : List Nat) (length : Nat)
  | jclassdesc (cd : CDesc)
  | jinstance (inst : Inst)
  | jclass (cdRef : Option Nat)
  | jenum (cdRef : Nat) (valRef : Nat)
  | jarray (cdRef : Nat) (ftype : Int) (contents : List FValue)
  | jblockdata (data : List Nat)
  | jexcstate (inner : Nat) (raw : List Nat)
  deriving DecidableEq, Repr

/-- `ParsedJavaContent` base data plus the concrete bean. -/
structure Node where
  handle : Int
  isExc : Bool
  body : NodeBody
  deriving DecidableEq, Repr

/-- `JavaClassDesc.validate` (`beans.py`, lines 373-398); `true` means
no `ValueError` is raised. -/
def validate_cd (cd : CDesc) : Bool :=
  let serialOrExtern := SC_SERIALIZABLE ||| SC_EXTERNALIZABLE
  if flagAnd cd.descFlags serialOrExtern == 0 && !cd.fields.isEmpty then
    false
  else if flagAnd cd.descFlags serialOrExtern == serialOrExtern then
    false
  else if flagAnd cd.descFlags SC_ENUM != 0 then
    cd.fields.isEmpty && cd.interfaces.isEmpty
  else
    cd.enumConstants.isEmpty

/-! ## Parser state and error plumbing (`core.py`) -/

/-- `TerminalCode` values used below. -/
def TC_NULL : Int := 0x70
def TC_REFERENCE : Int := 0x71
def TC_CLASSDESC : Int := 0x72
def TC_OBJECT : Int := 0x73
def TC_STRING : Int := 0x74
def TC_ARRAY : Int := 0x75
def TC_CLASS : Int := 0x76
def TC_BLOCKDATA : Int := 0x77
def TC_ENDBLOCKDATA : Int := 0x78
def TC_RESET : Int := 0x79
def TC_BLOCKDATALONG : Int := 0x7A
def TC_EXCEPTION : Int := 0x7B
def TC_LONGSTRING : Int := 0x7C
def TC_PROXYCLASSDESC : Int := 0x7D
def TC_ENUM : Int := 0x7E

def BASE_REFERENCE_IDX : Int := 0x7E0000

/-- The distinct fatal errors raised by the embedded code.  Each
constructor corresponds to one `raise` site (`ValueError`, `EOFError`,
`UnicodeDecodeError`, `UnboundLocalError`, `AttributeError`). -/
inductive PErr where
  | eof                              -- DataStreamReader.read short read
  | invalidMagic
  | invalidVersion
  | unknownTag
  | blockDataNotAllowed              -- "Got a block data, but not allowed here."
  | customUnhandled                  -- "Custom readObject can not be processed"
  | invalidReference (h : Int)       -- "Invalid reference handle"
  | handleCollision (h : Int)        -- "Trying to reset handle"
  | invalidStringLength              -- long string length out of range
  | invalidStringRef                 -- "Invalid reference to a Java string"
  | decodeError                      -- UnicodeDecodeError in mUTF-8 decoding
  | unboundLocal                     -- _read_new_string with a non-string tag
  | invalidFieldCount
  | invalidFieldType
  | emptyClassName                   -- JavaField.validate: "Class name can't be empty"
  | invalidObjectFieldType           -- JavaField.validate: bad L...; form
  | invalidClassDescRef              -- "Referenced object is not a class description"
  | invalidClassDescStarter
  | noneType                         -- AttributeError on a None classdesc
  | classValidation                  -- JavaClassDesc.validate ValueError
  | unhandledClassDataType           -- "Unhandled Class Data Type"
  | unhandledExternal                -- "hit externalizable with nonzero SC_BLOCK_DATA..."
  | arrayTypeMismatch                -- "Array type listed, but type code != TC_ARRAY"
  | cantProcessType                  -- "Can't process type"
  | nullEnumDesc                     -- "Enum description can't be null"
  | invalidArrayName                 -- "Invalid name in array class description"
  | latin1Encode                     -- cd.name[1].encode("latin1") failure
  | invalidArraySize
  | resetInException                 -- "TC_RESET read while reading exception"
  | nullException                    -- "Null exception object"
  | excNotInstance                   -- "Exception object is not an instance"
  | invalidBlockDataType
  | outOfFuel                        -- artefact of the fuel embedding
  deriving DecidableEq, Repr

/-- A raised Python exception: a fatal error or the internal
`ExceptionRead` carrying the flagged content node. -/
inductive PFail where
  | err (e : PErr)
  | excRead (nid : Nat)
  deriving DecidableEq, Repr

/-- Parser state: the input bytes with the file cursor, the handle table
with its archive (`__handle_maps`), the handle counter, and the arena of
all content beans created so far. -/
structure PState where
  data : List Nat
  pos : Nat
  handles : List (Int × Nat)
  handleMaps : List (List (Int × Nat))
  currentHandle : Int
  arena : List Node
  deriving DecidableEq, Repr

abbrev PRes (α : Type) := Except PFail α

/-- Sequencing that preserves the state on a raised exception. -/
def pbind {α β : Type} (x : PState × PRes α)
    (f : α → PState → PState × PRes β) : PState × PRes β :=
  match x with
  | (st, .ok a) => f a st
  | (st, .error e) => (st, .error e)

def pok {α : Type} (a : α) (st : PState) : PState × PRes α := (st, .ok a)

def perr {α : Type} (e : PErr) (st : PState) : PState × PRes α :=
  (st, .error (.err e))

/-- Initial parser state over a byte stream (fresh `JavaStreamParser`). -/
def mkInit (data : List Nat) : PState :=
  ⟨data, 0, [], [], BASE_REFERENCE_IDX, []⟩

/-! ### Byte cursor (`stream.py`) -/

/-- Python `fd.read(n)`: up to `n` bytes from the cursor, advancing by
the number of bytes actually delivered (no error on a short read). -/
def fdRead (n : Nat) (st : PState) : List Nat × PState :=
  let bs := (st.data.drop st.pos).take n
  (bs, { st with pos := st.pos + bs.length })

/-- `DataStreamReader.read`: read exactly `n` bytes or raise `EOFError`
("Stream has ended unexpectedly while parsing."). -/
def readExact (n : Nat) (st : PState) : PState × PRes (List Nat) :=
  let (bs, st') := fdRead n st
  if bs.length == n then pok bs st' else perr .eof st

def read_ubyte (st : PState) : PState × PRes Nat :=
  pbind (readExact 1 st) fun bs st => pok (beNat bs) st

def read_byte (st : PState) : PState × PRes Int :=
  pbind (readExact 1 st) fun bs st => pok (toSigned 8 (beNat bs)) st

def read_bool (st : PState) : PState × PRes Bool :=
  pbind (readExact 1 st) fun bs st => pok (beNat bs != 0) st

def read_ushort (st : PState) : PState × PRes Nat :=
  pbind (readExact 2 st) fun bs st => pok (beNat bs) st

def read_short (st : PState) : PState × PRes Int :=
  pbind (readExact 2 st) fun bs st => pok (toSigned 16 (beNat bs)) st

def read_int (st : PState) : PState × PRes Int :=
  pbind (readExact 4 st) fun bs st => pok (toSigned 32 (beNat bs)) st

def read_long (st : PState) : PState × PRes Int :=
  pbind (readExact 8 st) fun bs st => pok (toSigned 64 (beNat bs)) st

/-- `read_char`: an unsigned 16-bit code unit. -/
def read_char (st : PState) : PState × PRes Nat :=
  pbind (readExact 2 st) fun bs st => pok (beNat bs) st

def read_float_bits (st : PState) : PState × PRes Nat :=
  pbind (readExact 4 st) fun bs st => pok (beNat bs) st

def read_double_bits (st : PState) : PState × PRes Nat :=
  pbind (readExact 8 st) fun bs st => pok (beNat bs) st

/-- `DataStreamReader.read_UTF` (`stream.py`, lines 154-161): a checked
2-byte length, then an UNCHECKED `fd.read(length)` of the payload —
a short payload is silently truncated. -/
def read_UTF (st : PState) : PState × PRes (List Nat) :=
  pbind (read_ushort st) fun length st =>
    let (ba, st) := fdRead length st
    match decode_modified_utf8 ba with
    | .ok vl => pok vl.1 st
    | .error _ => perr .decodeError st

/-! ### Handle table (`core.py` lines 252-281) -/

/-- `_reset`: archive the current handle map when non-empty, clear it,
and restart the handle counter at `BASE_REFERENCE_IDX`. -/
def reset_state (st : PState) : PState :=
  { st with
    handleMaps :=
      if st.handles.isEmpty then st.handleMaps
      else st.handleMaps ++ [st.handles],
    handles := [],
    currentHandle := BASE_REFERENCE_IDX }

/-- `_new_handle`: return the counter and increment it. -/
def new_handle (st : PState) : PState × Int :=
  ({ st with currentHandle := st.currentHandle + 1 }, st.currentHandle)

/-- `_set_handle`: register a node, failing on an already-used handle
("Trying to reset handle"). -/
def set_handle (h : Int) (nid : Nat) (st : PState) : PState × PRes Unit :=
  if (st.handles.lookup h).isSome then perr (.handleCollision h) st
  else pok () { st with handles := st.handles ++ [(h, nid)] }

/-- `_do_reference`: read a 4-byte handle and look it up in the current
epoch's table. -/
def do_reference (st : PState) : PState × PRes Nat :=
  pbind (read_int st) fun h st =>
    match st.handles.lookup h with
    | some nid => pok nid st
    | none => perr (.invalidReference h) st

/-! ### Arena helpers -/

/-- Placeholder node; arena indices produced by the parser are always in
range, so the default is never observed. -/
def defaultNode : Node := ⟨0, false, .jstring [] 0⟩

def getN (st : PState) (nid : Nat) : Node :=
  st.arena.getD nid defaultNode

/-- Append a node to the arena, returning its id (the Python object
reference). -/
def pushNode (st : PState) (n : Node) : PState × Nat :=
  ({ st with arena := st.arena ++ [n] }, st.arena.length)

def setN (st : PState) (nid : Nat) (n : Node) : PState :=
  { st with arena := st.arena.set nid n }

/-- In-place mutation of a `JavaClassDesc` bean. -/
def updCD (st : PState) (nid : Nat) (f : CDesc → CDesc) : PState :=
  match getN st nid with
  | ⟨h, e, .jclassdesc cd⟩ => setN st nid ⟨h, e, .jclassdesc (f cd)⟩
  | _ => st

/-- In-place mutation of a `JavaInstance` bean. -/
def updInst (st : PState) (nid : Nat) (f : Inst → Inst) : PState :=
  match getN st nid with
  | ⟨h, e, .jinstance i⟩ => setN st nid ⟨h, e, .jinstance (f i)⟩
  | _ => st

/-- `content.is_exception = True` (in place). -/
def setExcFlag (st : PState) (nid : Nat) : PState :=
  match getN st nid with
  | ⟨h, _, b⟩ => setN st nid ⟨h, true, b⟩

def getCD (st : PState) (nid : Nat) : CDesc :=
  match getN st nid with
  | ⟨_, _, .jclassdesc cd⟩ => cd
  | _ => ⟨0, none, 0, 0, [], [], none, false, [], []⟩

def getInst (st : PState) (nid : Nat) : Inst :=
  match getN st nid with
  | ⟨_, _, .jinstance i⟩ => i
  | _ => ⟨none, [], [], false⟩

/-- Decoded value of a `JavaString` node. -/
def getStrValue (st : PState) (nid : Nat) : List Nat :=
  match getN st nid with
  | ⟨_, _, .jstring v _⟩ => v
  | _ => []

/-! ### Non-recursive record readers -/

/-- `_read_new_string` (`core.py`, lines 324-356).  A `TC_REFERENCE`
resolves to a previously registered string; otherwise a handle is
allocated, the length read (2-byte unsigned for `TC_STRING`, 8-byte
signed range-checked for `TC_LONGSTRING`; any other tag leaves `length`
unbound in the Python source — `UnboundLocalError`), the payload read
with an UNCHECKED `fd.read`, decoded, and the string registered. -/
def read_new_string (tc : Int) (st : PState) : PState × PRes Nat :=
  if tc == TC_REFERENCE then
    pbind (do_reference st) fun nid st =>
      match (getN st nid).body with
      | .jstring _ _ => pok nid st
      | _ => perr .invalidStringRef st
  else
    let (st, handle) := new_handle st
    let lengthRes : PState × PRes Int :=
      if tc == TC_STRING then
        pbind (read_ushort st) fun l st => pok (l : Int) st
      else if tc == TC_LONGSTRING then
        pbind (read_long st) fun l st =>
          if l < 0 || l > 2147483647 then perr .invalidStringLength st
          else pok l st
      else perr .unboundLocal st
    pbind lengthRes fun length st =>
      let (ba, st) := fdRead length.toNat st
      match decode_modified_utf8 ba with
      | .error _ => perr .decodeError st
      | .ok vl =>
        let (st, nid) := pushNode st ⟨handle, false, .jstring vl.1 vl.2⟩
        pbind (set_handle handle nid st) fun _ st => pok nid st

/-- `_do_block_data` (`core.py`, lines 749-767): a 1-byte or 4-byte
length, then an UNCHECKED `fd.read` of the payload. -/
def do_block_data (tc : Int) (st : PState) : PState × PRes (Option Nat) :=
  pbind
    (if tc == TC_BLOCKDATA then
       pbind (read_ubyte st) fun s st => pok (s : Int) st
     else if tc == TC_BLOCKDATALONG then read_int st
     else perr .invalidBlockDataType st)
    fun size st =>
      if size < 0 then perr .invalidArraySize st
      else
        let (bs, st) := fdRead size.toNat st
        let (st, nid) := pushNode st ⟨0, false, .jblockdata bs⟩
        pok (some nid) st

/-- `JavaField.__init__` validation (`beans.py`, lines 203-230): when a
class-name string is attached to an object-typed field it must be a
non-empty `L…;` descriptor. -/
def jfield_validate (ftype : Int) (value : List Nat) : PState → PState × PRes Unit :=
  fun st =>
    if ftype == 0x4C then
      if value.isEmpty then perr .emptyClassName st
      else if value.head? == some 0x4C && value.getLast? == some 0x3B then
        pok () st
      else perr .invalidObjectFieldType st
    else pok () st

/-- `JavaClassDesc.get_hierarchy` (`beans.py`, lines 356-371): the
super-first class chain, skipping a proxy super class.  `none` only on
fuel exhaustion (a cycle, which the parser cannot build). -/
def get_hierarchy (fuel : Nat) (st : PState) (nid : Nat) : Option (List Nat) :=
  match fuel with
  | 0 => none
  | fuel + 1 =>
    let cd := getCD st nid
    match cd.superClass with
    | none => some [nid]
    | some s =>
      if (getCD st s).classType == 1 then some [nid]
      else (get_hierarchy fuel st s).map (fun l => l ++ [nid])

/-- The final validation pass of `run` (`core.py`, lines 177-178):
`validate` every node in the handle table, in insertion order.  Only
`JavaClassDesc` overrides `validate`. -/
def validate_handles (st : PState) : List (Int × Nat) → PState × PRes Unit
  | [] => pok () st
  | (_, nid) :: rest =>
    match (getN st nid).body with
    | .jclassdesc cd =>
      if validate_cd cd then validate_handles st rest
      else perr .classValidation st
    | _ => validate_handles st rest

/-- Field-type codes accepted by `FieldType` (`beans.py`). -/
def fieldTypeCodes : List Int :=
  [0x42, 0x43, 0x44, 0x46, 0x49, 0x4A, 0x53, 0x5A, 0x4C, 0x5B]

/-- `PRIMITIVE_TYPES` (`constants.py`). -/
def primitiveTypeCodes : List Int :=
  [0x42, 0x43, 0x44, 0x46, 0x49, 0x4A, 0x53, 0x5A]

/-- Helper for `_do_classdesc` proxy branch: read `n` UTF interface
names. -/
def read_utf_list (n : Nat) (st : PState) : PState × PRes (List (List Nat)) :=
  match n with
  | 0 => pok [] st
  | n + 1 =>
    pbind (read_UTF st) fun s st =>
      pbind (read_utf_list n st) fun rest st => pok (s :: rest) st

/-- `_custom_readObject` (`core.py`, lines 451-468) with the embedded
empty transformer list: rewind one byte, find no transformer, raise
`ValueError("Custom readObject can not be processed")`. -/
def custom_readObject (st : PState) : PState × PRes (Option Nat) :=
  perr .customUnhandled { st with pos := st.pos - 1 }

/-- The tags with an entry in `__type_code_handlers`. -/
def handledTags : List Int :=
  [TC_OBJECT, TC_CLASS, TC_ARRAY, TC_STRING, TC_LONGSTRING, TC_ENUM,
   TC_CLASSDESC, TC_PROXYCLASSDESC, TC_REFERENCE, TC_NULL, TC_EXCEPTION,
   TC_BLOCKDATA, TC_BLOCKDATALONG]

/-- The `except ExceptionRead` handler wrapped around the dispatch in
`_read_content`: a raised exception object is returned as the parsed
content. -/
def catch_exc_read (x : PState × PRes (Option Nat)) : PState × PRes (Option Nat) :=
  match x with
  | (st, .error (.excRead nid)) => (st, .ok (some nid))
  | other => other

/-!
### The recursive core of `JavaStreamParser`

The handlers of `core.py` are mutually recursive.  They are embedded in
open-recursion style: `PFns` collects the signatures, each `_step`
definition is the body of one Python method with the recursive calls
going through `rec`, and `parserFns fuel` ties the knot by iterating the
step functional `fuel` times (plain structural recursion on `fuel`, so
concrete runs reduce inside the kernel).  `noFuelFns` — every call
failing with `outOfFuel` — is the bottom of the iteration and is never
reached by a real parse given enough fuel.  The wrappers below restore
the source names.
-/

structure PFns where
  read_content : Int → Bool → Option Nat → PState → PState × PRes (Option Nat)
  read_classdesc : PState → PState × PRes (Option Nat)
  do_classdesc : Int → PState → PState × PRes (Option Nat)
  read_fields_desc : Nat → PState → PState × PRes (List JField)
  read_class_annotations : Option Nat → PState → PState × PRes (List (Option Nat))
  do_object : PState → PState × PRes (Option Nat)
  read_class_data : Nat → PState → PState × PRes Unit
  class_data_loop : Nat → Bool → List Nat → List (Nat × List (JField × FValue)) →
    List (Nat × List (Option Nat)) → PState → PState × PRes Unit
  fields_loop : List JField → PState → PState × PRes (List (JField × FValue))
  read_field_value : Int → PState → PState × PRes FValue
  do_enum : PState → PState × PRes (Option Nat)
  do_class : PState → PState × PRes (Option Nat)
  do_array : PState → PState × PRes (Option Nat)
  array_elems : Int → Nat → PState → PState × PRes (List FValue)
  do_exception : PState → PState × PRes (Option Nat)

/-- `_read_content` (`core.py`, lines 290-322). -/
def read_content_step (rec : PFns) (tc : Int) (blockData : Bool)
    (classDesc : Option Nat) (st : PState) : PState × PRes (Option Nat) :=
  if !blockData && (tc == TC_BLOCKDATA || tc == TC_BLOCKDATALONG) then
    perr .blockDataNotAllowed st
  else if tc ∈ handledTags then
    catch_exc_read
      (if tc == TC_OBJECT then rec.do_object st
       else if tc == TC_CLASS then rec.do_class st
       else if tc == TC_ARRAY then rec.do_array st
       else if tc == TC_STRING || tc == TC_LONGSTRING then
         pbind (read_new_string tc st) fun nid st => pok (some nid) st
       else if tc == TC_ENUM then rec.do_enum st
       else if tc == TC_CLASSDESC || tc == TC_PROXYCLASSDESC then
         rec.do_classdesc tc st
       else if tc == TC_REFERENCE then
         pbind (do_reference st) fun nid st => pok (some nid) st
       else if tc == TC_NULL then pok none st
       else if tc == TC_EXCEPTION then rec.do_exception st
       else do_block_data tc st)
  else
    match classDesc with
    | some cdNid =>
      let cd := getCD st cdNid
      if cd.name != none && cd.name != some [] then
        match data_type cd.descFlags with
        | .ok dt =>
          if dt == WRCLASS then custom_readObject st else perr .unknownTag st
        | .error _ => perr .unhandledClassDataType st
      else perr .unknownTag st
    | none => perr .unknownTag st

/-- `_read_classdesc` (`core.py`, lines 358-364). -/
def read_classdesc_step (rec : PFns) (st : PState) : PState × PRes (Option Nat) :=
  pbind (read_byte st) fun tc st => rec.do_classdesc tc st

/-- `_do_classdesc` (`core.py`, lines 366-449).  Mind the order in the
`TC_CLASSDESC` branch: the handle is allocated after name and suid, but
the descriptor is registered in the handle table only AFTER its
annotations and its super descriptor have been parsed. -/
def do_classdesc_step (rec : PFns) (tc : Int) (st : PState) :
    PState × PRes (Option Nat) :=
  if tc == TC_CLASSDESC then
    pbind (read_UTF st) fun name st =>
    pbind (read_long st) fun suid st =>
    let (st, handle) := new_handle st
    pbind (read_byte st) fun descFlags st =>
    pbind (read_short st) fun nbFields st =>
    if nbFields < 0 then perr .invalidFieldCount st
    else
      pbind (rec.read_fields_desc nbFields.toNat st) fun fields st =>
      let (st, nid) := pushNode st
        ⟨handle, false,
         .jclassdesc ⟨0, some name, suid, descFlags, fields, [], none,
                      false, [], []⟩⟩
      pbind (rec.read_class_annotations (some nid) st) fun anns st =>
      let st := updCD st nid (fun cd => { cd with annotations := anns })
      pbind (rec.read_classdesc st) fun sup st =>
      let st := updCD st nid (fun cd => { cd with superClass := sup })
      let st :=
        match sup with
        | some snid => updCD st snid (fun cd => { cd with isSuperClass := true })
        | none => st
      pbind (set_handle handle nid st) fun _ st => pok (some nid) st
  else if tc == TC_NULL then pok none st
  else if tc == TC_REFERENCE then
    pbind (do_reference st) fun pnid st =>
      match (getN st pnid).body with
      | .jclassdesc _ => pok (some pnid) st
      | _ => perr .invalidClassDescRef st
  else if tc == TC_PROXYCLASSDESC then
    let (st, handle) := new_handle st
    pbind (read_int st) fun nbIfaces st =>
    pbind (read_utf_list nbIfaces.toNat st) fun ifaces st =>
    let (st, nid) := pushNode st
      ⟨handle, false,
       .jclassdesc ⟨1, none, 0, 0, [], [], none, false, ifaces, []⟩⟩
    pbind (rec.read_class_annotations none st) fun anns st =>
    let st := updCD st nid (fun cd => { cd with annotations := anns })
    pbind (rec.read_classdesc st) fun sup st =>
    let st := updCD st nid (fun cd => { cd with superClass := sup })
    let st :=
      match sup with
      | some snid => updCD st snid (fun cd => { cd with isSuperClass := true })
      | none => st
    pbind (set_handle handle nid st) fun _ st => pok (some nid) st
  else perr .invalidClassDescStarter st

/-- The field-descriptor loop of `_do_classdesc` (lines 383-399),
including `JavaField.__init__` validation. -/
def read_fields_desc_step (rec : PFns) (n : Nat) (st : PState) :
    PState × PRes (List JField) :=
  match n with
  | 0 => pok [] st
  | n + 1 =>
    pbind (read_byte st) fun ftype st =>
    pbind (read_UTF st) fun fname st =>
    if ftype == 0x4C || ftype == 0x5B then
      pbind (read_byte st) fun strTc st =>
      pbind (read_new_string strTc st) fun strNid st =>
      pbind (jfield_validate ftype (getStrValue st strNid) st) fun _ st =>
      pbind (rec.read_fields_desc n st) fun rest st =>
        pok (⟨ftype, fname, some strNid⟩ :: rest) st
    else if ftype ∈ primitiveTypeCodes then
      pbind (rec.read_fields_desc n st) fun rest st =>
        pok (⟨ftype, fname, none⟩ :: rest) st
    else perr .invalidFieldType st

/-- `_read_class_annotations` (`core.py`, lines 470-494): read contents
until `TC_ENDBLOCKDATA`, resetting the handle table on `TC_RESET`, and
raising `ExceptionRead` on a content flagged as an exception. -/
def read_class_annotations_step (rec : PFns) (classDesc : Option Nat)
    (st : PState) : PState × PRes (List (Option Nat)) :=
  pbind (read_byte st) fun tc st =>
    if tc == TC_ENDBLOCKDATA then pok [] st
    else if tc == TC_RESET then
      rec.read_class_annotations classDesc (reset_state st)
    else
      pbind (rec.read_content tc true classDesc st) fun obj st =>
        match obj with
        | some nid =>
          if (getN st nid).isExc then (st, .error (.excRead nid))
          else
            pbind (rec.read_class_annotations classDesc st) fun rest st =>
              pok (some nid :: rest) st
        | none =>
          pbind (rec.read_class_annotations classDesc st) fun rest st =>
            pok (none :: rest) st

/-- `_do_object` (`core.py`, lines 513-538): read the class descriptor,
allocate a handle, build the (plain) instance, REGISTER it, and only
then read the class data — so the instance is resolvable while its own
content is parsed. -/
def do_object_step (rec : PFns) (st : PState) : PState × PRes (Option Nat) :=
  pbind (rec.read_classdesc st) fun cdOpt st =>
  let (st, handle) := new_handle st
  let (st, nid) := pushNode st ⟨handle, false, .jinstance ⟨cdOpt, [], [], false⟩⟩
  pbind (set_handle handle nid st) fun _ st =>
  pbind (rec.read_class_data nid st) fun _ st =>
  pok (some nid) st

/-- `_read_class_data` (`core.py`, lines 555-602).  `hfuel` bounds the
`get_hierarchy` recursion (the super chain cannot be cyclic, so any
bound at least the chain length is exact). -/
def read_class_data_step (hfuel : Nat) (rec : PFns) (instNid : Nat)
    (st : PState) : PState × PRes Unit :=
  let inst := getInst st instNid
  match inst.classdesc with
  | none => perr .noneType st
  | some cdNid =>
    match get_hierarchy hfuel st cdNid with
    | none => perr .outOfFuel st
    | some classes =>
      rec.class_data_loop instNid inst.isExternal classes [] [] st

/-- The per-class body of `_read_class_data`'s hierarchy walk.  Note the
non-serializable branch: `OBJECT_ANNOTATION` asks the instance's
`load_from_blockdata` hook (always `False` for a plain `JavaInstance`,
hence the `ValueError` "hit externalizable with nonzero SC_BLOCK_DATA"),
while `EXTERNAL_CONTENTS` falls through and reads an annotation stream
without any error. -/
def class_data_loop_step (rec : PFns) (instNid : Nat) (isExt : Bool)
    (classes : List Nat) (allData : List (Nat × List (JField × FValue)))
    (anns : List (Nat × List (Option Nat))) (st : PState) :
    PState × PRes Unit :=
  match classes with
  | [] =>
    let st := updInst st instNid
      (fun i => { i with annotations := anns, fieldData := allData })
    -- instance.load_from_instance(): a plain JavaInstance returns False
    pok () st
  | cdNid :: rest =>
    let cd := getCD st cdNid
    if !validate_cd cd then perr .classValidation st
    else
      match data_type cd.descFlags with
      | .error _ => perr .unhandledClassDataType st
      | .ok dt =>
        if dt == NOWRCLASS || dt == WRCLASS then
          if dt == WRCLASS && isExt then
            pbind (rec.read_class_annotations (some cdNid) st) fun c st =>
              rec.class_data_loop instNid isExt rest allData
                (anns ++ [(cdNid, c)]) st
          else
            pbind (rec.fields_loop cd.fields st) fun values st =>
              let allData := allData ++ [(cdNid, values)]
              if dt == WRCLASS then
                pbind (rec.read_class_annotations (some cdNid) st) fun c st =>
                  rec.class_data_loop instNid isExt rest allData
                    (anns ++ [(cdNid, c)]) st
              else rec.class_data_loop instNid isExt rest allData anns st
        else if dt == OBJECT_ANNOTATION then perr .unhandledExternal st
        else
          pbind (rec.read_class_annotations (some cdNid) st) fun c st =>
            rec.class_data_loop instNid isExt rest allData
              (anns ++ [(cdNid, c)]) st

/-- The `for field in cd.fields` loop of `_read_class_data`. -/
def fields_loop_step (rec : PFns) (fs : List JField) (st : PState) :
    PState × PRes (List (JField × FValue)) :=
  match fs with
  | [] => pok [] st
  | f :: rest =>
    pbind (rec.read_field_value f.ftype st) fun v st =>
    pbind (rec.fields_loop rest st) fun vs st =>
      pok ((f, v) :: vs) st

/-- `_read_field_value` (`core.py`, lines 604-644). -/
def read_field_value_step (rec : PFns) (ftype : Int) (st : PState) :
    PState × PRes FValue :=
  if ftype == 0x42 then pbind (read_byte st) fun v st => pok (.vbyte v) st
  else if ftype == 0x43 then pbind (read_char st) fun v st => pok (.vchar v) st
  else if ftype == 0x44 then
    pbind (read_double_bits st) fun v st => pok (.vdoubleBits v) st
  else if ftype == 0x46 then
    pbind (read_float_bits st) fun v st => pok (.vfloatBits v) st
  else if ftype == 0x49 then pbind (read_int st) fun v st => pok (.vint v) st
  else if ftype == 0x4A then pbind (read_long st) fun v st => pok (.vlong v) st
  else if ftype == 0x53 then pbind (read_short st) fun v st => pok (.vshort v) st
  else if ftype == 0x5A then pbind (read_bool st) fun v st => pok (.vbool v) st
  else if ftype == 0x4C || ftype == 0x5B then
    pbind (read_byte st) fun sub st =>
      if ftype == 0x5B && sub == TC_NULL then pok (.ref none) st
      else if ftype == 0x5B && sub == TC_REFERENCE then
        pbind (rec.do_classdesc sub st) fun cdOpt st => pok (.ref cdOpt) st
      else if ftype == 0x5B && sub != TC_ARRAY then perr .arrayTypeMismatch st
      else
        pbind (rec.read_content sub false none st) fun content st =>
          match content with
          | some nid =>
            if (getN st nid).isExc then (st, .error (.excRead nid))
            else pok (.ref content) st
          | none => pok (.ref none) st
  else perr .cantProcessType st

/-- `_do_enum` (`core.py`, lines 657-676). -/
def do_enum_step (rec : PFns) (st : PState) : PState × PRes (Option Nat) :=
  pbind (rec.read_classdesc st) fun cdOpt st =>
  match cdOpt with
  | none => perr .nullEnumDesc st
  | some cdNid =>
    let (st, handle) := new_handle st
    pbind (read_byte st) fun sub st =>
    pbind (read_new_string sub st) fun strNid st =>
    let v := getStrValue st strNid
    let st := updCD st cdNid (fun cd =>
      if v ∈ cd.enumConstants then cd
      else { cd with enumConstants := cd.enumConstants ++ [v] })
    let (st, nid) := pushNode st ⟨handle, false, .jenum cdNid strNid⟩
    pbind (set_handle handle nid st) fun _ st => pok (some nid) st

/-- `_do_class` (`core.py`, lines 678-689). -/
def do_class_step (rec : PFns) (st : PState) : PState × PRes (Option Nat) :=
  pbind (rec.read_classdesc st) fun cdOpt st =>
  let (st, handle) := new_handle st
  let (st, nid) := pushNode st ⟨handle, false, .jclass cdOpt⟩
  pbind (set_handle handle nid st) fun _ st => pok (some nid) st

/-- `_do_array` (`core.py`, lines 691-720).  A handle is allocated for
the array, but — unlike every other handler — the node is NEVER passed
to `_set_handle`: the function returns right after building the
`JavaArray`. -/
def do_array_step (rec : PFns) (st : PState) : PState × PRes (Option Nat) :=
  pbind (rec.read_classdesc st) fun cdOpt st =>
  let (st, handle) := new_handle st
  match cdOpt with
  | none => perr .noneType st
  | some cdNid =>
    match (getCD st cdNid).name with
    | none => perr .invalidArrayName st
    | some nm =>
      if nm.length < 2 then perr .invalidArrayName st
      else
        let c1 := nm.getD 1 0
        if c1 > 255 then perr .latin1Encode st
        else if !((c1 : Int) ∈ fieldTypeCodes) then perr .invalidFieldType st
        else
          pbind (read_int st) fun size st =>
            if size < 0 then perr .invalidArraySize st
            else
              pbind (rec.array_elems (c1 : Int) size.toNat st) fun content st =>
                let (st, nid) := pushNode st
                  ⟨handle, false, .jarray cdNid (c1 : Int) content⟩
                pok (some nid) st

/-- The element loop of `_do_array` (no transformer claims the array,
so elements are read one by one with `_read_field_value`). -/
def array_elems_step (rec : PFns) (ftype : Int) (n : Nat) (st : PState) :
    PState × PRes (List FValue) :=
  match n with
  | 0 => pok [] st
  | n + 1 =>
    pbind (rec.read_field_value ftype st) fun v st =>
    pbind (rec.array_elems ftype n st) fun vs st =>
      pok (v :: vs) st

/-- `_do_exception` (`core.py`, lines 722-747): reset, read one content
(no block data allowed), require a non-null instance; if the content is
already flagged, re-raise `ExceptionRead`; otherwise flag it, reset
again and return it. -/
def do_exception_step (rec : PFns) (st : PState) : PState × PRes (Option Nat) :=
  let st := reset_state st
  pbind (read_byte st) fun tc st =>
    if tc == TC_RESET then perr .resetInException st
    else
      pbind (rec.read_content tc false none st) fun contentOpt st =>
        match contentOpt with
        | none => perr .nullException st
        | some nid =>
          match (getN st nid).body with
          | .jinstance _ =>
            if (getN st nid).isExc then (st, .error (.excRead nid))
            else
              let st := setExcFlag st nid
              let st := reset_state st
              pok (some nid) st
          | _ => perr .excNotInstance st

/-- Bottom of the fuel iteration: every call fails with `outOfFuel`. -/
def noFuelFns : PFns where
  read_content := fun _ _ _ st => perr .outOfFuel st
  read_classdesc := fun st => perr .outOfFuel st
  do_classdesc := fun _ st => perr .outOfFuel st
  read_fields_desc := fun _ st => perr .outOfFuel st
  read_class_annotations := fun _ st => perr .outOfFuel st
  do_object := fun st => perr .outOfFuel st
  read_class_data := fun _ st => perr .outOfFuel st
  class_data_loop := fun _ _ _ _ _ st => perr .outOfFuel st
  fields_loop := fun _ st => perr .outOfFuel st
  read_field_value := fun _ st => perr .outOfFuel st
  do_enum := fun st => perr .outOfFuel st
  do_class := fun st => perr .outOfFuel st
  do_array := fun st => perr .outOfFuel st
  array_elems := fun _ _ st => perr .outOfFuel st
  do_exception := fun st => perr .outOfFuel st

/-- One unfolding of every parser method. -/
def parserStep (hfuel : Nat) (rec : PFns) : PFns where
  read_content := read_content_step rec
  read_classdesc := read_classdesc_step rec
  do_classdesc := do_classdesc_step rec
  read_fields_desc := read_fields_desc_step rec
  read_class_annotations := read_class_annotations_step rec
  do_object := do_object_step rec
  read_class_data := read_class_data_step hfuel rec
  class_data_loop := class_data_loop_step rec
  fields_loop := fields_loop_step rec
  read_field_value := read_field_value_step rec
  do_enum := do_enum_step rec
  do_class := do_class_step rec
  do_array := do_array_step rec
  array_elems := array_elems_step rec
  do_exception := do_exception_step rec

/-- The parser methods at a given fuel. -/
def parserFns : Nat → PFns
  | 0 => noFuelFns
  | fuel + 1 => parserStep fuel (parserFns fuel)

def read_content (fuel : Nat) (tc : Int) (blockData : Bool)
    (classDesc : Option Nat) (st : PState) : PState × PRes (Option Nat) :=
  (parserFns fuel).read_content tc blockData classDesc st

def read_classdesc (fuel : Nat) (st : PState) : PState × PRes (Option Nat) :=
  (parserFns fuel).read_classdesc st

def do_classdesc (fuel : Nat) (tc : Int) (st : PState) :
    PState × PRes (Option Nat) :=
  (parserFns fuel).do_classdesc tc st

def do_object (fuel : Nat) (st : PState) : PState × PRes (Option Nat) :=
  (parserFns fuel).do_object st

def do_enum (fuel : Nat) (st : PState) : PState × PRes (Option Nat) :=
  (parserFns fuel).do_enum st

def do_class (fuel : Nat) (st : PState) : PState × PRes (Option Nat) :=
  (parserFns fuel).do_class st

def do_array (fuel : Nat) (st : PState) : PState × PRes (Option Nat) :=
  (parserFns fuel).do_array st

def do_exception (fuel : Nat) (st : PState) : PState × PRes (Option Nat) :=
  (parserFns fuel).do_exception st

def read_class_annotations (fuel : Nat) (classDesc : Option Nat)
    (st : PState) : PState × PRes (List (Option Nat)) :=
  (parserFns fuel).read_class_annotations classDesc st

/-- The top-level content loop of `run` (`core.py`, lines 148-175),
plus the final validation pass and handle-map archiving (lines 177-183).
`EOFError` from the leading `read_byte` ends the loop; a content flagged
as an exception is wrapped into an `ExceptionState` carrying the raw
bytes of the whole top-level item (lines 165-173). -/
def run_loop (fuel : Nat) (st : PState) (acc : List (Option Nat)) :
    PState × PRes (List (Option Nat)) :=
  match fuel with
  | 0 => perr .outOfFuel st
  | fuel + 1 =>
    let start := st.pos
    match read_byte st with
    | (st', .error (.err .eof)) =>
      pbind (validate_handles st' st'.handles) fun _ st' =>
        let st' :=
          if st'.handles.isEmpty then st'
          else { st' with handleMaps := st'.handleMaps ++ [st'.handles] }
        pok acc st'
    | (st', .error e) => (st', .error e)
    | (st', .ok tc) =>
      if tc == TC_RESET then run_loop fuel (reset_state st') acc
      else
        pbind (read_content fuel tc true none st') fun pc st' =>
          match pc with
          | some nid =>
            if (getN st' nid).isExc then
              let raw := (st'.data.drop start).take (st'.pos - start)
              let (st', enid) :=
                pushNode st' ⟨(getN st' nid).handle, false, .jexcstate nid raw⟩
              run_loop fuel st' (acc ++ [some enid])
            else run_loop fuel st' (acc ++ [some nid])
          | none => run_loop fuel st' (acc ++ [none])

/-- `JavaStreamParser.run` (`core.py`, lines 129-185): magic, version,
reset, then the content loop. -/
def run (fuel : Nat) (st : PState) : PState × PRes (List (Option Nat)) :=
  pbind (read_ushort st) fun magic st =>
    if magic != 0xACED then perr .invalidMagic st
    else
      pbind (read_ushort st) fun version st =>
        if version != 5 then perr .invalidVersion st
        else run_loop fuel (reset_state st) []

/-! ## `JavaMap.load_from_instance` (`transformers.py`, lines 146-175)

The default transformer for `java.util.HashMap` / `java.util.TreeMap`.
The instance's `annotations` dict is modelled as an insertion-ordered
list of `(class name, annotation list)` entries; annotation elements are
kept generic in `α` (they are arbitrary parsed contents compared with
the parsed beans' `__eq__`). -/

def javaMapHandledClasses : List (List Nat) :=
  [strLit "java.util.HashMap", strLit "java.util.TreeMap"]

/-- `args = [iter(annotations[1:])] * 2; zip(*args)`: consecutive
pairs, dropping an odd leftover element. -/
def pair_up {α : Type} : List α → List (α × α)
  | k :: v :: rest => (k, v) :: pair_up rest
  | _ => []

/-- Python `self[key] = value` on an insertion-ordered dict: replace the
value of the first (unique) equal key in place, else append. -/
def dict_insert {α β : Type} [DecidableEq α] :
    List (α × β) → α → β → List (α × β)
  | [], k, v => [(k, v)]
  | (k', v') :: rest, k, v =>
    if k' = k then (k', v) :: rest else (k', v') :: dict_insert rest k v

/-- `JavaMap.load_from_instance`: find the first annotation entry whose
class name is in `JavaMap.HANDLED_CLASSES`; group the elements after
index 0 two by two and fill the dict in wire order.  `none` models
`return False` (nothing loaded). -/
def java_map_load {α : Type} [DecidableEq α]
    (anns : List (List Nat × List α)) : Option (List (α × α)) :=
  match anns with
  | [] => none
  | (nm, l) :: rest =>
    if nm ∈ javaMapHandledClasses then
      some ((pair_up (l.drop 1)).foldl (fun d kv => dict_insert d kv.1 kv.2) [])
    else java_map_load rest

/-! ## Concrete input streams used by the claim theorems -/

/-- A `CLASSDESC` body (tag already consumed): class `A`, suid 0, flags
`SC_SERIALIZABLE`, no fields, and — inside the descriptor's own class
annotations — a `TC_REFERENCE` to handle `0x7E0000`, the handle that was
just allocated for this very descriptor. -/
def cdescSelfRefBytes : List Nat :=
  [0x00, 0x01, 0x41,                      -- UTF "A"
   0, 0, 0, 0, 0, 0, 0, 0,               -- serialVersionUID = 0
   0x02,                                  -- flags = SC_SERIALIZABLE
   0x00, 0x00,                            -- 0 fields
   0x71, 0x00, 0x7E, 0x00, 0x00]          -- annotation: REFERENCE 0x7E0000

/-- An `OBJECT` body (tag already consumed): class `A` with one object
field `r` of type `LA;`, whose value is a `TC_REFERENCE` to handle
`0x7E0002` — the handle of the instance being read. -/
def instSelfRefBytes : List Nat :=
  [0x72,                                  -- TC_CLASSDESC
   0x00, 0x01, 0x41,                      -- UTF "A"
   0, 0, 0, 0, 0, 0, 0, 0,               -- suid = 0
   0x02,                                  -- flags = SC_SERIALIZABLE
   0x00, 0x01,                            -- 1 field
   0x4C, 0x00, 0x01, 0x72,                -- object field "r"
   0x74, 0x00, 0x03, 0x4C, 0x41, 0x3B,    -- TC_STRING "LA;"
   0x78,                                  -- TC_ENDBLOCKDATA (annotations)
   0x70,                                  -- TC_NULL (no super class)
   0x71, 0x00, 0x7E, 0x00, 0x02]          -- field value: REFERENCE 0x7E0002

/-- A full stream: header, an `ARRAY` record (`[B`, size 0), then a
`TC_REFERENCE` to handle `0x7E0001` — the handle that `_do_array`
allocated for the array. -/
def arrayThenRefBytes : List Nat :=
  [0xAC, 0xED, 0x00, 0x05,
   0x75,                                  -- TC_ARRAY
   0x72, 0x00, 0x02, 0x5B, 0x42,          -- TC_CLASSDESC "[B"
   0, 0, 0, 0, 0, 0, 0, 0,               -- suid = 0
   0x02,                                  -- flags = SC_SERIALIZABLE
   0x00, 0x00,                            -- 0 fields
   0x78,                                  -- end annotations
   0x70,                                  -- null super
   0x00, 0x00, 0x00, 0x00,                -- array size = 0
   0x71, 0x00, 0x7E, 0x00, 0x01]          -- REFERENCE to the array handle

/-- An `OBJECT` body: class `E` with flags `SC_EXTERNALIZABLE` only
(data type `EXTERNAL_CONTENTS`), whose class data is an empty annotation
stream. -/
def externalBytes : List Nat :=
  [0x72, 0x00, 0x01, 0x45,                -- TC_CLASSDESC "E"
   0, 0, 0, 0, 0, 0, 0, 0,               -- suid = 0
   0x04,                                  -- flags = SC_EXTERNALIZABLE
   0x00, 0x00, 0x78, 0x70,                -- 0 fields, end annots, null super
   0x78]                                  -- class data: end of annotations

/-- Same externalizable class `E`, its class data being one block-data
record `[0xAB]` followed by the end of the annotation stream. -/
def externalBlockBytes : List Nat :=
  [0x72, 0x00, 0x01, 0x45,
   0, 0, 0, 0, 0, 0, 0, 0,
   0x04,
   0x00, 0x00, 0x78, 0x70,
   0x77, 0x01, 0xAB,                      -- TC_BLOCKDATA, 1 byte, 0xAB
   0x78]

/-- A minimal serializable instance of class `T` (an `OBJECT` record
with its tag). -/
def instTBytes : List Nat :=
  [0x73,                                  -- TC_OBJECT
   0x72, 0x00, 0x01, 0x54,                -- TC_CLASSDESC "T"
   0, 0, 0, 0, 0, 0, 0, 0,
   0x02, 0x00, 0x00, 0x78, 0x70]

/-- Full stream: an `EXCEPTION` record wrapping another `EXCEPTION`
record wrapping the instance of `T`. -/
def nestedExceptionBytes : List Nat :=
  [0xAC, 0xED, 0x00, 0x05, 0x7B, 0x7B] ++ instTBytes

/-- Full stream: an `EXCEPTION` record wrapping the instance of `T`. -/
def simpleExceptionBytes : List Nat :=
  [0xAC, 0xED, 0x00, 0x05, 0x7B] ++ instTBytes

/-- Full stream: an `EXCEPTION` record whose content is `TC_NULL`. -/
def nullExceptionBytes : List Nat :=
  [0xAC, 0xED, 0x00, 0x05, 0x7B, 0x70]

/-- Full stream: an `EXCEPTION` record whose content is a string. -/
def strExceptionBytes : List Nat :=
  [0xAC, 0xED, 0x00, 0x05, 0x7B, 0x74, 0x00, 0x01, 0x41]

/-- A `LONGSTRING` payload whose 8-byte length (1) is in range but whose
single payload byte `0x00` is rejected by the modified UTF-8 decoder. -/
def longStringZeroByteBytes : List Nat :=
  [0, 0, 0, 0, 0, 0, 0, 1, 0x00]

deriving instance DecidableEq for Except

/-! ### Concrete states for the witness theorems -/

/-- A state with one registered handle, for the handle-table witnesses. -/
def stHandleW : PState := ⟨[], 0, [(8257536, 0)], [], 8257538, []⟩

/-- A state whose next four bytes encode handle `0x7E0000`, with an
empty handle table. -/
def stRefMissW : PState := ⟨[0x00, 0x7E, 0x00, 0x00], 0, [], [], BASE_REFERENCE_IDX, []⟩

/-- `stRefMissW` after its 4-byte read. -/
def stRefMissW4 : PState := ⟨[0x00, 0x7E, 0x00, 0x00], 4, [], [], BASE_REFERENCE_IDX, []⟩

/-- Like `stRefMissW` but with handle `0x7E0000` registered to node 5. -/
def stRefHitW : PState := ⟨[0x00, 0x7E, 0x00, 0x00], 0, [(8257536, 5)], [], BASE_REFERENCE_IDX, []⟩

/-- `stRefHitW` after its 4-byte read. -/
def stRefHitW4 : PState := ⟨[0x00, 0x7E, 0x00, 0x00], 4, [(8257536, 5)], [], BASE_REFERENCE_IDX, []⟩

/-- A declared-length-2 `read_utf` payload of which only one byte is
available. -/
def stUtfShortW : PState := mkInit [0x00, 0x02, 0x41]

/-- `stUtfShortW` after its 2-byte length read. -/
def stUtfShortW2 : PState := ⟨[0x00, 0x02, 0x41], 2, [], [], BASE_REFERENCE_IDX, []⟩

/-- A `LONGSTRING` length of -1 (out of range). -/
def stLongNegW : PState := mkInit [0xFF, 0xFF, 0xFF, 0xFF, 0xFF, 0xFF, 0xFF, 0xFF]

/-- `stLongNegW` after handle allocation and the 8-byte length read. -/
def stLongNegW8 : PState :=
  ⟨[0xFF, 0xFF, 0xFF, 0xFF, 0xFF, 0xFF, 0xFF, 0xFF], 8, [], [], 8257537, []⟩

/-- A `LONGSTRING` record of length 3 with payload `abc`. -/
def stLongAbcW : PState := mkInit [0, 0, 0, 0, 0, 0, 0, 3, 0x61, 0x62, 0x63]

/-- `stLongAbcW` after handle allocation and the 8-byte length read. -/
def stLongAbcW8 : PState :=
  ⟨[0, 0, 0, 0, 0, 0, 0, 3, 0x61, 0x62, 0x63], 8, [], [], 8257537, []⟩

/-- A `STRING` record of length 1 with payload `a`. -/
def stStrAW : PState := mkInit [0x00, 0x01, 0x61]

/-- `stStrAW` after handle allocation and the 2-byte length read. -/
def stStrAW2 : PState := ⟨[0x00, 0x01, 0x61], 2, [], [], 8257537, []⟩

/-! # Theorems -/

set_option maxRecDepth 100000

/-! ## Helper lemmas (shared) -/

theorem dict_insert_of_not_mem {α β : Type} [DecidableEq α] (d : List (α × β))
    (k : α) (v : β) (h : k ∉ d.map Prod.fst) :
    dict_insert d k v = d ++ [(k, v)] := by
  induction d with
  | nil => rfl
  | cons p rest ih =>
    obtain ⟨k', v'⟩ := p
    simp only [List.map_cons, List.mem_cons, not_or] at h
    have hne : ¬(k' = k) := fun e => h.1 e.symm
    simp only [dict_insert, if_neg hne, List.cons_append, List.cons.injEq,
      true_and]
    exact ih h.2

theorem foldl_dict_insert_eq_append {α β : Type} [DecidableEq α]
    (pairs : List (α × β)) (acc : List (α × β))
    (h : ((acc ++ pairs).map Prod.fst).Nodup) :
    pairs.foldl (fun d kv => dict_insert d kv.1 kv.2) acc = acc ++ pairs := by
  induction pairs generalizing acc with
  | nil => simp
  | cons kv rest ih =>
    obtain ⟨k, v⟩ := kv
    have h' : (k :: (acc.map Prod.fst ++ rest.map Prod.fst)).Nodup :=
      List.nodup_middle.mp (by simpa using h)
    have hk : k ∉ acc.map Prod.fst := fun hm =>
      (List.nodup_cons.mp h').1 (List.mem_append_left _ hm)
    simp only [List.foldl_cons]
    rw [dict_insert_of_not_mem _ _ _ hk]
    rw [ih (acc ++ [(k, v)]) (by simpa [List.append_assoc] using h)]
    simp

/-! ## C1 — registration at handle allocation, before children -/

/-- C1 (counterexample).  The claim asserts that EVERY handleable node —
explicitly including class descriptors — is registered in the handle
table the moment its handle is allocated, before its children are
parsed, so that a `REFERENCE` to that handle inside the node's own
children resolves.  On a concrete `CLASSDESC` whose class annotations
contain a `REFERENCE` to the descriptor's own handle `0x7E0000`
(`cdescSelfRefBytes`), the parse fails with "Invalid reference handle":
`_do_classdesc` registers the descriptor only after its annotations and
super descriptor are read. -/
theorem C1_classdesc_self_reference_fails :
    (do_classdesc 40 TC_CLASSDESC (mkInit cdescSelfRefBytes)).2 =
      .error (.err (.invalidReference 8257536)) := by decide

/-- C1 (amended).  For an instance (`OBJECT` record) the claim does
hold: `_do_object` registers the instance under its handle before
`_read_class_data` parses the field values, so a field that is a
`REFERENCE` to the instance's own handle `0x7E0002` resolves to the
instance node itself (node 2), producing a cyclic structure, and the
handle is in the table after the parse. -/
theorem C1_instance_registered_before_children :
    (do_object 40 (mkInit instSelfRefBytes)).2 = .ok (some 2) ∧
    getInst (do_object 40 (mkInit instSelfRefBytes)).1 2 =
      ⟨some 1, [(1, [(⟨0x4C, [0x72], some 0⟩, .ref (some 2))])], [], false⟩ ∧
    (do_object 40 (mkInit instSelfRefBytes)).1.handles.lookup 8257538 =
      some 2 := by decide

/-! ## C2 — arrays are never registered in the handle table -/

/-- C2 (code bug).  After parsing an `ARRAY` record the claim (and the
spec) requires the array node to be registered under its allocated
handle so that a later `REFERENCE` resolves to it.  `_do_array`
allocates handle `0x7E0001` but never calls `_set_handle`, so on the
concrete stream `arrayThenRefBytes` — an empty `[B` array followed by
`REFERENCE 0x7E0001` — the parse fails with "Invalid reference handle"
instead of resolving to the array. -/
theorem C2_array_not_registered :
    (run 40 (mkInit arrayThenRefBytes)).2 =
      .error (.err (.invalidReference 8257537)) := by decide

/-! ## C3 — EXTERNAL_CONTENTS does not fail -/

/-- C3 (counterexample).  The claim says class data of a class with
`data_type == EXTERNAL_CONTENTS` fails the parse with
`ExternalContentsUnsupported`.  On the concrete `OBJECT` record
`externalBytes` (class `E`, flags exactly `SC_EXTERNALIZABLE`, data type
`EXTERNAL_CONTENTS`) the parse SUCCEEDS: `_read_class_data`'s else
branch only raises for `OBJECT_ANNOTATION` and falls through to reading
an annotation stream for `EXTERNAL_CONTENTS`. -/
theorem C3_external_contents_does_not_fail :
    (do_object 40 (mkInit externalBytes)).2 = .ok (some 1) := by decide

/-- C3 (amended).  For a class with `data_type == EXTERNAL_CONTENTS`
the parser continues reading: the class level is consumed as an
annotation stream.  Concretely, with one block-data record `[0xAB]`
before the end marker (`externalBlockBytes`), the parse succeeds and
the instance's annotations for class `E` (node 0) are exactly the
parsed `BlockData` node. -/
theorem C3_external_contents_reads_annotations :
    (do_object 40 (mkInit externalBlockBytes)).2 = .ok (some 1) ∧
    (getInst (do_object 40 (mkInit externalBlockBytes)).1 1).annotations =
      [(0, [some 2])] ∧
    getN (do_object 40 (mkInit externalBlockBytes)).1 2 =
      ⟨0, false, .jblockdata [0xAB]⟩ := by decide

/-! ## C4 — derived data type ignores SC_BLOCK_DATA -/

/-- C4 (code bug).  The claim (like the spec and the
`load_from_blockdata` docstring in `beans.py`) says an externalizable
descriptor is `OBJECT_ANNOTATION` exactly when `SC_WRITE_METHOD` or
`SC_BLOCK_DATA` is set.  `JavaClassDesc.data_type` tests only
`SC_WRITE_METHOD`: for flags `0x0C` (`SC_EXTERNALIZABLE` with
`SC_BLOCK_DATA`, the layout every protocol-2 `Externalizable` class
uses) it yields `EXTERNAL_CONTENTS`, not `OBJECT_ANNOTATION`; with
`SC_WRITE_METHOD` (flags `0x05`) it yields `OBJECT_ANNOTATION`. -/
theorem C4_data_type_ignores_sc_block_data :
    data_type 0x0C = .ok EXTERNAL_CONTENTS ∧
    data_type 0x0C ≠ .ok OBJECT_ANNOTATION ∧
    data_type 0x05 = .ok OBJECT_ANNOTATION := by decide

/-! ## C5 — short reads -/

/-- C5 (counterexample).  The claim says every cursor read — explicitly
including the mUTF-8 payload read of `read_utf` — raises
`UnexpectedEof` on a short read.  On `stUtfShortW` (`read_utf` length 2
with only one payload byte available) the payload is read with an
unchecked `fd.read`, and `read_UTF` returns the truncated value `"A"`
instead of an error. -/
theorem C5_read_utf_truncated_payload_no_error :
    (read_UTF stUtfShortW).2 = .ok [0x41] := by decide

/-- C5 (amended).  The fixed-format reads of `DataStreamReader.read`
(bool/byte/short/int/long/…, and `read_utf`'s 2-byte length) do raise
`EOFError` on a short read; but the payload reads of `read_utf` (and of
`STRING`/`LONGSTRING` records) use an unchecked `fd.read`, so a short
payload that still decodes yields a truncated value with no error. -/
theorem C5_short_read_behaviour (st st1 : PState) (n L : Nat)
    (v : List Nat) (cnt : Nat) :
    (st.data.length - st.pos < n → (readExact n st).2 = .error (.err .eof)) ∧
    (read_ushort st = (st1, .ok L) →
      decode_modified_utf8 ((st1.data.drop st1.pos).take L) = .ok (v, cnt) →
      read_UTF st = ((fdRead L st1).2, .ok v)) := by
  constructor
  · intro hlt
    have hle : ¬(n ≤ st.data.length - st.pos) := by omega
    simp [readExact, fdRead, hle, perr]
  · intro hr hd
    simp [read_UTF, hr, pbind, fdRead, hd, pok]

/-- Witness for C5: a 2-byte exact read on a 1-byte stream raises
`EOFError`, while the truncated `read_utf` payload on `stUtfShortW`
yields `"A"` without error. -/
theorem C5_short_read_behaviour_witness :
    (readExact 2 (mkInit [0x41])).2 = .error (.err .eof) ∧
    read_UTF stUtfShortW = ((fdRead 2 stUtfShortW2).2, .ok [0x41]) :=
  ⟨(C5_short_read_behaviour (mkInit [0x41]) stUtfShortW2 2 0 [] 0).1
      (by decide),
   (C5_short_read_behaviour stUtfShortW stUtfShortW2 2 2 [0x41] 1).2
      (by decide) (by decide)⟩

/-! ## C6 — the EXCEPTION sub-protocol -/

/-- C6 (counterexample).  The claim says the content of an `EXCEPTION`
record "must not itself already be flagged as an exception (each
violation fails the parse)".  On the concrete stream
`nestedExceptionBytes` — `EXCEPTION` wrapping `EXCEPTION` wrapping an
instance — the parse does NOT fail: the inner flagged instance makes
`_do_exception` raise `ExceptionRead`, which `_read_content` catches
and converts into an ordinary return, and `run` wraps the node in an
`ExceptionState` (node 2). -/
theorem C6_nested_exception_parse_succeeds :
    (run 40 (mkInit nestedExceptionBytes)).2 = .ok [some 2] := by decide

/-- C6 (amended).  On `EXCEPTION` the parser resets the handle table,
reads one content node, fails the parse if it is null
(`nullExceptionBytes`) or not an instance (`strExceptionBytes`), marks
it `is_exception=true`, resets again (archiving the epoch's handles and
leaving the table empty), and returns it; the `ExceptionState` wrapper
carries the same handle `0x7E0001` as the wrapped instance and the raw
bytes of the top-level item.  Only the already-flagged violation does
not fail the parse (see the counterexample). -/
theorem C6_exception_subprotocol :
    (run 40 (mkInit simpleExceptionBytes)).2 = .ok [some 2] ∧
    getN (run 40 (mkInit simpleExceptionBytes)).1 2 =
      ⟨8257537, false, .jexcstate 1 ([0x7B] ++ instTBytes)⟩ ∧
    (getN (run 40 (mkInit simpleExceptionBytes)).1 1).handle = 8257537 ∧
    (getN (run 40 (mkInit simpleExceptionBytes)).1 1).isExc = true ∧
    (run 40 (mkInit simpleExceptionBytes)).1.handles = [] ∧
    (run 40 (mkInit simpleExceptionBytes)).1.handleMaps =
      [[(8257536, 0), (8257537, 1)]] ∧
    (run 40 (mkInit nullExceptionBytes)).2 = .error (.err .nullException) ∧
    (run 40 (mkInit strExceptionBytes)).2 = .error (.err .excNotInstance) := by
  decide

/-! ## C7 — handle table operations -/

/-- C7.  Handle-table operations fail exactly as specified: after
`_reset` (which archives a non-empty table and restarts the counter at
`0x7E0000`) no handle is resolvable — in particular every handle
registered before an intervening `RESET`; `_set_handle` on a handle
already present in the epoch fails with the collision error; and
`_do_reference` on a handle absent from the current epoch fails with
"Invalid reference handle", while a present handle resolves to its
registered node. -/
theorem C7_handle_table_ops (st st' : PState) (h hx : Int) (nid nid' : Nat) :
    (reset_state st).handles.lookup hx = none ∧
    (reset_state st).currentHandle = BASE_REFERENCE_IDX ∧
    (¬st.handles.isEmpty = true →
      (reset_state st).handleMaps = st.handleMaps ++ [st.handles]) ∧
    ((st.handles.lookup h).isSome →
      (set_handle h nid' st).2 = .error (.err (.handleCollision h))) ∧
    (read_int st = (st', .ok h) → st'.handles.lookup h = none →
      do_reference st = (st', .error (.err (.invalidReference h)))) ∧
    (read_int st = (st', .ok h) → st'.handles.lookup h = some nid →
      do_reference st = (st', .ok nid)) := by
  refine ⟨rfl, rfl, ?_, ?_, ?_, ?_⟩
  · intro hne
    simp only [reset_state]
    rw [if_neg hne]
  · intro hs
    simp [set_handle, hs, perr]
  · intro hr hl
    simp [do_reference, hr, pbind, hl, perr]
  · intro hr hl
    simp [do_reference, hr, pbind, hl, pok]

/-- Witness for C7 at concrete states: lookups after a reset fail, the
reset archives `stHandleW`'s table and restarts the counter,
re-registering handle `0x7E0000` collides, dereferencing `0x7E0000`
fails on an empty table (`stRefMissW`) and resolves to node 5 when
registered (`stRefHitW`). -/
theorem C7_handle_table_ops_witness :
    (reset_state stHandleW).handles.lookup 8257536 = none ∧
    (reset_state stHandleW).currentHandle = BASE_REFERENCE_IDX ∧
    (reset_state stHandleW).handleMaps = [] ++ [[(8257536, 0)]] ∧
    (set_handle 8257536 7 stHandleW).2 =
      .error (.err (.handleCollision 8257536)) ∧
    do_reference stRefMissW =
      (stRefMissW4, .error (.err (.invalidReference 8257536))) ∧
    do_reference stRefHitW = (stRefHitW4, .ok 5) :=
  ⟨(C7_handle_table_ops stHandleW stHandleW 0 8257536 0 0).1,
   (C7_handle_table_ops stHandleW stHandleW 0 0 0 0).2.1,
   (C7_handle_table_ops stHandleW stHandleW 0 0 0 0).2.2.1 (by decide),
   (C7_handle_table_ops stHandleW stHandleW 8257536 0 0 7).2.2.2.1 (by decide),
   (C7_handle_table_ops stRefMissW stRefMissW4 8257536 0 0 0).2.2.2.2.1
     (by decide) (by decide),
   (C7_handle_table_ops stRefHitW stRefHitW4 8257536 0 5 0).2.2.2.2.2
     (by decide) (by decide)⟩

/-! ## C8 — string length validation -/

/-- C8 (counterexample).  The claim says a `LONGSTRING` record parses
successfully IF AND ONLY IF its i64 length is in `[0, 2^31-1]`.  The
"if" direction is false: `longStringZeroByteBytes` has the in-range
length 1, yet the parse fails, because the payload byte `0x00` is
rejected by the modified UTF-8 decoder ("embedded zero-byte not
allowed"). -/
theorem C8_longstring_in_range_zero_byte_fails :
    (read_new_string TC_LONGSTRING (mkInit longStringZeroByteBytes)).2 =
      .error (.err .decodeError) := by decide

/-- C8 (amended).  A `LONGSTRING` length outside `[0, 2^31-1]` fails
with the invalid-string-length error; an in-range length parses
successfully PROVIDED the payload bytes decode as modified UTF-8, the
string node being registered under the freshly allocated handle; and
the same holds for a `STRING` record (whose 2-byte length is at most
65535) — so a string of length 65535 with a decodable payload parses in
both encodings. -/
theorem C8_string_length_validation (st st2 : PState) (len : Int) (L : Nat)
    (v : List Nat) (cnt : Nat) :
    (read_long (new_handle st).1 = (st2, .ok len) →
      len < 0 ∨ 2147483647 < len →
      (read_new_string TC_LONGSTRING st).2 =
        .error (.err .invalidStringLength)) ∧
    (read_long (new_handle st).1 = (st2, .ok len) →
      0 ≤ len → len ≤ 2147483647 →
      decode_modified_utf8 ((st2.data.drop st2.pos).take len.toNat) =
        .ok (v, cnt) →
      st2.handles.lookup st.currentHandle = none →
      (read_new_string TC_LONGSTRING st).2 = .ok st2.arena.length ∧
      getN (read_new_string TC_LONGSTRING st).1 st2.arena.length =
        ⟨st.currentHandle, false, .jstring v cnt⟩) ∧
    (read_ushort (new_handle st).1 = (st2, .ok L) →
      decode_modified_utf8 ((st2.data.drop st2.pos).take L) = .ok (v, cnt) →
      st2.handles.lookup st.currentHandle = none →
      (read_new_string TC_STRING st).2 = .ok st2.arena.length ∧
      getN (read_new_string TC_STRING st).1 st2.arena.length =
        ⟨st.currentHandle, false, .jstring v cnt⟩) := by
  refine ⟨?_, ?_, ?_⟩
  · intro hr hrange
    have hb : (len < 0 || len > 2147483647) = true := by
      rcases hrange with h | h <;> simp [h]
    simp only [new_handle] at hr
    simp [read_new_string, TC_LONGSTRING, TC_REFERENCE, TC_STRING, new_handle,
      hr, pbind, hb, perr]
  · intro hr h0 h1 hd hfree
    have hb : (len < 0 || len > 2147483647) = false := by
      simp only [Bool.or_eq_false_iff, decide_eq_false_iff_not, not_lt,
        gt_iff_lt]
      omega
    simp only [new_handle] at hr
    simp [read_new_string, TC_LONGSTRING, TC_REFERENCE, TC_STRING, new_handle,
      hr, pbind, hb, fdRead, hd, pushNode, set_handle, hfree, pok, getN,
      List.getD_append_right, Nat.sub_self]
  · intro hr hd hfree
    simp only [new_handle] at hr
    simp [read_new_string, TC_STRING, TC_REFERENCE, new_handle,
      hr, pbind, fdRead, hd, pushNode, set_handle, hfree, pok, getN,
      List.getD_append_right, Nat.sub_self]

/-- Witness for C8: length -1 fails with the invalid-string-length
error; `LONGSTRING` of length 3 with payload `abc` and `STRING` of
length 1 with payload `a` both parse, registering the string node. -/
theorem C8_string_length_validation_witness :
    (read_new_string TC_LONGSTRING stLongNegW).2 =
      .error (.err .invalidStringLength) ∧
    ((read_new_string TC_LONGSTRING stLongAbcW).2 = .ok 0 ∧
      getN (read_new_string TC_LONGSTRING stLongAbcW).1 0 =
        ⟨8257536, false, .jstring [0x61, 0x62, 0x63] 3⟩) ∧
    ((read_new_string TC_STRING stStrAW).2 = .ok 0 ∧
      getN (read_new_string TC_STRING stStrAW).1 0 =
        ⟨8257536, false, .jstring [0x61] 1⟩) :=
  ⟨(C8_string_length_validation stLongNegW stLongNegW8 (-1) 0 [] 0).1
     (by decide) (by decide),
   (C8_string_length_validation stLongAbcW stLongAbcW8 3 0
       [0x61, 0x62, 0x63] 3).2.1
     (by decide) (by decide) (by decide) (by decide) (by decide),
   (C8_string_length_validation stStrAW stStrAW2 0 1 [0x61] 1).2.2
     (by decide) (by decide) (by decide)⟩

/-! ## C9 — the HashMap/TreeMap transformer -/

/-- C9.  For an instance whose annotation entry for
`java.util.HashMap` / `java.util.TreeMap` is `[a0, a1, …, a2k]`, the
default transformer builds the native map from exactly the consecutive
pairs `(a1, a2), (a3, a4), …` taken after index 0, in wire order: with
pairwise-distinct keys the resulting insertion-ordered dict is exactly
that pair list. -/
theorem C9_map_pairs_annotations {α : Type} [DecidableEq α] (nm : List Nat)
    (hnm : nm ∈ javaMapHandledClasses) (a0 : α) (tl : List α)
    (hkeys : ((pair_up tl).map Prod.fst).Nodup) :
    java_map_load [(nm, a0 :: tl)] = some (pair_up tl) := by
  simp only [java_map_load, if_pos hnm]
  rw [show (a0 :: tl).drop 1 = tl from rfl]
  rw [foldl_dict_insert_eq_append (pair_up tl) [] (by simpa using hkeys)]
  simp

/-- Witness for C9: a serialized `java.util.HashMap` with annotations
`[capacity-block, "a", "b"]` yields the native map with the single
entry `("a", "b")`. -/
theorem C9_map_pairs_annotations_witness :
    java_map_load [(strLit "java.util.HashMap", [[0], [0x61], [0x62]])] =
      some [([0x61], [0x62])] :=
  C9_map_pairs_annotations (strLit "java.util.HashMap") (by decide)
    [0] [[0x61], [0x62]] (by decide)

/-! ## C10 — JavaString equality and hashing -/

/-- C10.  `JavaString.__eq__` and `JavaString.__hash__` both delegate
to the decoded value: for every byte payload whose decoding yields
value `v`, the constructed string node has value `v`, compares equal to
the native string `v`, and hashes exactly as `v` does. -/
theorem C10_javastring_eq_hash_delegate (h : Int) (data v : List Nat) (n : Nat)
    (hdec : decode_modified_utf8 data = .ok (v, n)) :
    mkJavaString h data = .ok ⟨h, v, n⟩ ∧
    jstring_eq ⟨h, v, n⟩ v = true ∧
    jstring_hash ⟨h, v, n⟩ = py_hash v := by
  refine ⟨?_, ?_, rfl⟩
  · simp only [mkJavaString, hdec, Except.map]
  · simp [jstring_eq]

/-- Witness for C10 at the payload `"ab"`. -/
theorem C10_javastring_eq_hash_delegate_witness :
    mkJavaString 7 [0x61, 0x62] = .ok ⟨7, [0x61, 0x62], 2⟩ ∧
    jstring_eq ⟨7, [0x61, 0x62], 2⟩ [0x61, 0x62] = true ∧
    jstring_hash ⟨7, [0x61, 0x62], 2⟩ = py_hash [0x61, 0x62] :=
  C10_javastring_eq_hash_delegate 7 [0x61, 0x62] [0x61, 0x62] 2 (by decide)
